import Mathlib

/-!
Verification development for the stroke-capture and rendering engine of the
Bible study application.

The embedding below is a shallow model of the TypeScript source:

* `src/components/DrawingCanvas.tsx` — the drawing canvas component.  Its
  mutable refs (`pathsRef`, `currentPointsRef`, `isDrawingRef`, `toolRef`,
  `colorRef`, `sizeRef`, `lastPenDownRef`, `usingTouchRef`) become fields of
  `CanvasState`; each event handler becomes a pure state-transition function.
  JavaScript numbers are modelled as `ℚ` (exact for every constant appearing
  in the claims) and timestamps (`Date.now()`) as `Int` milliseconds.
* `src/components/VoiceSession.tsx` (second embedded document,
  `InlineBibleAnnotation.tsx`) — surface controller: key-switch flush/load
  effect and the expansion-handle clamp.
* `src/unnamed/part_001` (`annotationStorage.ts`) — the IndexedDB persistence
  adapter, modelled as an association list keyed by the record id.
* `JSON.stringify` / `JSON.parse` are platform collaborators; they are
  modelled at the JSON-value level by an explicit `Json` tree together with
  an encoder/decoder pair for the `SerializedPath` wire format.
-/

namespace BibleInk

/-- Tool union type from `DrawingCanvas.tsx`:
`'pen' | 'marker' | 'highlighter' | 'eraser'`. -/
inductive Tool where
  | pen
  | marker
  | highlighter
  | eraser
deriving DecidableEq, Repr

/-- `interface Point { x; y; pressure; tiltX; tiltY }` from `DrawingCanvas.tsx`.
JavaScript `number` is modelled as `ℚ`. -/
structure Point where
  x : ℚ
  y : ℚ
  pressure : ℚ
  tiltX : ℚ
  tiltY : ℚ
deriving DecidableEq, Repr

/-- `interface SerializedPath { tool; color; size; points }` from
`DrawingCanvas.tsx`. -/
structure SerializedPath where
  tool : Tool
  color : String
  size : ℚ
  points : List Point
deriving DecidableEq, Repr

/-- The mutable refs of the `DrawingCanvas` component, gathered into one
state record.  `isWritingMode` is the component prop read by every handler.
Rendering-only refs (`needsRedrawRef`, `rafIdRef`, `dprRef`) carry no
state-machine content and are omitted. -/
structure CanvasState where
  paths : List SerializedPath
  currentPoints : List Point
  isDrawing : Bool
  tool : Tool
  color : String
  size : ℚ
  lastPenDown : Int
  usingTouch : Bool
  isWritingMode : Bool
deriving DecidableEq, Repr

/-- The effective `ctx.lineWidth` computed by `drawSegment`
(`DrawingCanvas.tsx` lines 171–223) for a segment ending at `toPoint`:

```
let lineWidth = size;
const p = to.pressure > 0 ? to.pressure : 0.5;
lineWidth = size * (0.1 + p * 1.8);
if (tool === 'pen' && (|to.tiltX| > 15 || |to.tiltY| > 15)) {
  lineWidth *= 1 + (|to.tiltX| + |to.tiltY|) / 180;
}
switch (tool) { eraser: size*4; highlighter: size*5; marker: lineWidth*2.5;
                default: lineWidth }
```
-/
def drawSegmentLineWidth (tool : Tool) (size : ℚ) (toPoint : Point) : ℚ :=
  let p : ℚ := if toPoint.pressure > 0 then toPoint.pressure else 1/2
  let lw : ℚ := size * (1/10 + p * (9/5))
  let lw : ℚ :=
    if tool = Tool.pen ∧ (|toPoint.tiltX| > 15 ∨ |toPoint.tiltY| > 15) then
      lw * (1 + (|toPoint.tiltX| + |toPoint.tiltY|) / 180)
    else lw
  match tool with
  | Tool.eraser => size * 4
  | Tool.highlighter => size * 5
  | Tool.marker => lw * (5/2)
  | Tool.pen => lw

/-- `startDrawing` (`DrawingCanvas.tsx` lines 304–322).  `isPen` is the
stylus-class flag computed by the callers; `now` models `Date.now()`.

```
if (!isWritingMode) return;
if (isPen) {
  const now = Date.now();
  if (now - lastPenDownRef.current < 300 && now - lastPenDownRef.current > 50) {
    toolRef.current = toolRef.current === 'eraser' ? 'pen' : 'eraser';
    lastPenDownRef.current = 0;
    return;
  }
  lastPenDownRef.current = now;
}
isDrawingRef.current = true;
currentPointsRef.current = [point];
```
-/
def startDrawing (st : CanvasState) (point : Point) (isPen : Bool) (now : Int) :
    CanvasState :=
  if st.isWritingMode = false then st
  else if isPen = true ∧ now - st.lastPenDown < 300 ∧ now - st.lastPenDown > 50 then
    { st with
      tool := if st.tool = Tool.eraser then Tool.pen else Tool.eraser,
      lastPenDown := 0 }
  else
    let st1 := if isPen = true then { st with lastPenDown := now } else st
    { st1 with isDrawing := true, currentPoints := [point] }

/-- `continueDrawing` (`DrawingCanvas.tsx` lines 326–332): append every
incoming point to the in-progress buffer. -/
def continueDrawing (st : CanvasState) (points : List Point) : CanvasState :=
  if st.isDrawing = false then st
  else { st with currentPoints := st.currentPoints ++ points }

/-- `endDrawing` (`DrawingCanvas.tsx` lines 336–355): commit the buffered
points as a new `SerializedPath` when at least 2 points were captured,
reading `toolRef/colorRef/sizeRef` at this moment. -/
def endDrawing (st : CanvasState) : CanvasState :=
  if st.isDrawing = false then st
  else
    let st1 := { st with isDrawing := false }
    let st2 :=
      if 2 ≤ st1.currentPoints.length then
        { st1 with
          paths := st1.paths ++
            [{ tool := st1.tool, color := st1.color, size := st1.size,
               points := st1.currentPoints }] }
      else st1
    { st2 with currentPoints := [] }

/-- `handleTouchStart` (`DrawingCanvas.tsx` lines 359–378): single-touch
check, then the `usingTouchRef.current = true` mark, then `startDrawing`. -/
def handleTouchStart (st : CanvasState) (touchCount : Nat) (point : Point)
    (isPen : Bool) (now : Int) : CanvasState :=
  if st.isWritingMode = false then st
  else if touchCount ≠ 1 then st
  else startDrawing { st with usingTouch := true } point isPen now

/-- `handleTouchMove` (`DrawingCanvas.tsx` lines 380–401). -/
def handleTouchMove (st : CanvasState) (touchCount : Nat) (points : List Point) :
    CanvasState :=
  if st.isWritingMode = false ∨ st.isDrawing = false then st
  else if touchCount ≠ 1 then st
  else continueDrawing st points

/-- `handleTouchEnd` (`DrawingCanvas.tsx` lines 403–415).  The
`setTimeout(() => usingTouchRef.current = false, 100)` is modelled by the
separate deferred step `touchFlagTimerFire`. -/
def handleTouchEnd (st : CanvasState) : CanvasState :=
  if st.isWritingMode = false then st
  else endDrawing st

/-- The deferred timer callback registered by `handleTouchEnd`, firing 100 ms
later: `usingTouchRef.current = false`. -/
def touchFlagTimerFire (st : CanvasState) : CanvasState :=
  { st with usingTouch := false }

/-- `handleTouchCancel` (`DrawingCanvas.tsx` lines 417–425): discard the
buffer without committing, clear the touch flag. -/
def handleTouchCancel (st : CanvasState) : CanvasState :=
  if st.isDrawing = false then st
  else { st with isDrawing := false, currentPoints := [], usingTouch := false }

/-- `handlePointerDown` (`DrawingCanvas.tsx` lines 429–438):

```
if (!isWritingMode) return;
if (usingTouchRef.current) return;
if (e.pointerType !== 'pen' && !e.isPrimary) return;
startDrawing(getPointFromPointer(e), e.pointerType === 'pen');
```
-/
def handlePointerDown (st : CanvasState) (point : Point)
    (pointerTypeIsPen : Bool) (isPrimary : Bool) (now : Int) : CanvasState :=
  if st.isWritingMode = false then st
  else if st.usingTouch = true then st
  else if pointerTypeIsPen = false ∧ isPrimary = false then st
  else startDrawing st point pointerTypeIsPen now

/-- `handlePointerMove` (`DrawingCanvas.tsx` lines 440–456). -/
def handlePointerMove (st : CanvasState) (points : List Point) : CanvasState :=
  if st.isDrawing = false then st
  else if st.usingTouch = true then st
  else continueDrawing st points

/-- `handlePointerUp` (`DrawingCanvas.tsx` lines 458–465). -/
def handlePointerUp (st : CanvasState) : CanvasState :=
  if st.isDrawing = false then st
  else if st.usingTouch = true then st
  else endDrawing st

/-- `handlePointerCancel` (`DrawingCanvas.tsx` lines 467–473).  Note: unlike
down/move/up, this handler does not consult `usingTouchRef`. -/
def handlePointerCancel (st : CanvasState) : CanvasState :=
  if st.isDrawing = false then st
  else { st with isDrawing := false, currentPoints := [] }

/-- `setTool` from the imperative handle (`DrawingCanvas.tsx` line 95). -/
def setTool (st : CanvasState) (t : Tool) : CanvasState := { st with tool := t }

/-- `setColor` from the imperative handle (`DrawingCanvas.tsx` line 96). -/
def setColor (st : CanvasState) (c : String) : CanvasState := { st with color := c }

/-- `setSize` from the imperative handle (`DrawingCanvas.tsx` line 97). -/
def setSize (st : CanvasState) (s : ℚ) : CanvasState := { st with size := s }

/-- `undo` from the imperative handle (`DrawingCanvas.tsx` lines 88–94):
drop the most recently appended path, no-op on empty. -/
def undo (st : CanvasState) : CanvasState :=
  if 0 < st.paths.length then { st with paths := st.paths.dropLast } else st

/-!
### JSON wire format

`getData` returns `JSON.stringify(pathsRef.current)` (or `''` when the store
is empty) and the `initialData` effect runs `JSON.parse` and an
`Array.isArray` check.  `JSON.stringify`/`JSON.parse` are platform
collaborators; the serialized string is modelled by the JSON value tree it
denotes (`Json` below), with the empty string modelled as `none`.  The
encoder lays the fields out in the property order the component objects use;
the decoder reads back the record structure the rest of the engine consumes.
-/

/-- JSON value tree (the fragment the wire format uses). -/
inductive Json where
  | num (v : ℚ)
  | str (s : String)
  | arr (elems : List Json)
  | obj (fields : List (String × Json))

/-- Tool name as serialized by `JSON.stringify`. -/
def encodeTool : Tool → String
  | Tool.pen => "pen"
  | Tool.marker => "marker"
  | Tool.highlighter => "highlighter"
  | Tool.eraser => "eraser"

/-- Inverse of `encodeTool` on the four tool names. -/
def decodeTool (s : String) : Option Tool :=
  if s = "pen" then some Tool.pen
  else if s = "marker" then some Tool.marker
  else if s = "highlighter" then some Tool.highlighter
  else if s = "eraser" then some Tool.eraser
  else none

/-- JSON object for one `Point` (property order as in the source object). -/
def encodePoint (p : Point) : Json :=
  Json.obj [("x", Json.num p.x), ("y", Json.num p.y),
            ("pressure", Json.num p.pressure),
            ("tiltX", Json.num p.tiltX), ("tiltY", Json.num p.tiltY)]

/-- JSON object for one `SerializedPath`. -/
def encodePath (p : SerializedPath) : Json :=
  Json.obj [("tool", Json.str (encodeTool p.tool)),
            ("color", Json.str p.color),
            ("size", Json.num p.size),
            ("points", Json.arr (p.points.map encodePoint))]

/-- JSON array for a whole path store. -/
def encodePaths (ps : List SerializedPath) : Json :=
  Json.arr (ps.map encodePath)

/-- First field with the given key, as JavaScript property access reads it. -/
def getField : List (String × Json) → String → Option Json
  | [], _ => none
  | (k, v) :: rest, key => if k = key then some v else getField rest key

/-- Numeric payload of a JSON value, if any. -/
def asNum : Json → Option ℚ
  | Json.num v => some v
  | _ => none

/-- String payload of a JSON value, if any. -/
def asStr : Json → Option String
  | Json.str s => some s
  | _ => none

/-- Read one point record back from JSON. -/
def decodePoint (j : Json) : Option Point :=
  match j with
  | Json.obj fields => do
      let x ← getField fields "x" >>= asNum
      let y ← getField fields "y" >>= asNum
      let pressure ← getField fields "pressure" >>= asNum
      let tiltX ← getField fields "tiltX" >>= asNum
      let tiltY ← getField fields "tiltY" >>= asNum
      some { x := x, y := y, pressure := pressure, tiltX := tiltX, tiltY := tiltY }
  | _ => none

/-- Read a point array back from JSON, failing on any malformed element. -/
def decodePointList : List Json → Option (List Point)
  | [] => some []
  | j :: rest =>
    match decodePoint j, decodePointList rest with
    | some p, some ps => some (p :: ps)
    | _, _ => none

/-- Read one path record back from JSON.  (At load time the source casts the
parsed array wholesale — `parsed as SerializedPath[]` — and the fields are
consumed later by `fullRedraw`/`getData`; the decoder models that
field-by-field interpretation.) -/
def decodePath (j : Json) : Option SerializedPath :=
  match j with
  | Json.obj fields => do
      let toolName ← getField fields "tool" >>= asStr
      let tool ← decodeTool toolName
      let color ← getField fields "color" >>= asStr
      let size ← getField fields "size" >>= asNum
      let pointsJ ← getField fields "points"
      match pointsJ with
      | Json.arr elems => do
          let points ← decodePointList elems
          some { tool := tool, color := color, size := size, points := points }
      | _ => none
  | _ => none

/-- Read a path-store array back from JSON, failing on any malformed path. -/
def decodePathList : List Json → Option (List SerializedPath)
  | [] => some []
  | j :: rest =>
    match decodePath j, decodePathList rest with
    | some p, some ps => some (p :: ps)
    | _, _ => none

/-- `JSON.parse` result interpreted by the load effect: only a top-level
array is accepted (`Array.isArray(parsed)`). -/
def decodePaths (j : Json) : Option (List SerializedPath) :=
  match j with
  | Json.arr elems => decodePathList elems
  | _ => none

/-- `getData` from the imperative handle (`DrawingCanvas.tsx` lines 84–87):
`''` (modelled `none`) for an empty store, else the serialized store. -/
def getData (st : CanvasState) : Option Json :=
  if st.paths.length = 0 then none else some (encodePaths st.paths)

/-- The `initialData` load effect (`DrawingCanvas.tsx` lines 145–167) acting
on the path store: an empty/absent string leaves the store untouched; a
parsed array replaces it wholesale; anything else (parse failure or
non-array, including the legacy `data:image` branch) leaves it untouched. -/
def loadInitialData (initialData : Option Json)
    (paths : List SerializedPath) : List SerializedPath :=
  match initialData with
  | none => paths
  | some j =>
    match decodePaths j with
    | some ps => ps
    | none => paths

/-!
### Persistence adapter (`annotationStorage.ts`, `src/unnamed/part_001`)

IndexedDB with `keyPath: 'id'` is modelled as an association list from id to
record; `db.put` is an upsert, `db.get` a lookup.
-/

/-- `AnnotationRecord` from `annotationStorage.ts`. -/
structure AnnotationRecord where
  id : String
  bookId : String
  chapter : Nat
  canvasData : String
  canvasHeight : ℚ
  lastModified : Int
  panelId : Option String
deriving DecidableEq, Repr

/-- The `annotations` object store. -/
abbrev AnnDB : Type := List (String × AnnotationRecord)

/-- Composite record id:
`panelId ? bookId + ':' + chapter + ':' + panelId : bookId + ':' + chapter`. -/
def annId (bookId : String) (chapter : Nat) (panelId : Option String) : String :=
  match panelId with
  | some p => bookId ++ ":" ++ toString chapter ++ ":" ++ p
  | none => bookId ++ ":" ++ toString chapter

/-- `db.put('annotations', record)`: upsert keyed on `record.id`. -/
def dbPut (db : AnnDB) (r : AnnotationRecord) : AnnDB :=
  (r.id, r) :: List.filter (fun kv => kv.1 ≠ r.id) db

/-- `db.get('annotations', id)`. -/
def dbGet (db : AnnDB) (id : String) : Option AnnotationRecord :=
  List.lookup id db

/-- `AnnotationStorageService.saveAnnotation` (`annotationStorage.ts`):
creates or overwrites the record under the composite id; `now` models
`Date.now()`. -/
def saveAnnotationRecord (db : AnnDB) (bookId : String) (chapter : Nat)
    (canvasData : String) (canvasHeight : ℚ) (panelId : Option String)
    (now : Int) : AnnDB :=
  dbPut db
    { id := annId bookId chapter panelId, bookId := bookId, chapter := chapter,
      canvasData := canvasData, canvasHeight := canvasHeight,
      lastModified := now, panelId := panelId }

/-- `AnnotationStorageService.getAnnotation` (`annotationStorage.ts` lines
86–111): look the composite id up; when a panel id was given and nothing was
found, fall back to the id without the panel discriminator; return the
`{data, height}` projection. -/
def getAnnotationRecord (db : AnnDB) (bookId : String) (chapter : Nat)
    (panelId : Option String) : Option (String × ℚ) :=
  let id := annId bookId chapter panelId
  let record := dbGet db id
  let record :=
    match record, panelId with
    | none, some _ => dbGet db (annId bookId chapter none)
    | r, _ => r
  Option.map (fun r => (r.canvasData, r.canvasHeight)) record

/-!
### Surface controller (`InlineBibleAnnotation`, second document embedded in
`src/components/VoiceSession.tsx`)

The component tracks the previous composite key (`prevKeyRef`) and the
current serialized data / extra height state; on a key change its effect
(lines 305–337) first issues a save for the outgoing key (when it has data)
and then loads the incoming key.
-/

/-- The key-switch-relevant state of the `InlineBibleAnnotation` component.
The source keeps `prevKeyRef` as the joined string
`bookId + ':' + chapter + ':' + panelId` and splits it on `':'` when saving;
the components are kept here directly (the join/split pair is the identity
for panel keys whose book id contains no `':'`). -/
structure AnnState where
  prevBook : String
  prevChapter : Nat
  prevPanel : Option String
  savedPaths : String
  extraHeight : ℚ
deriving DecidableEq, Repr

/-- One asynchronous call against the persistence adapter. -/
inductive StorageCall where
  | save (bookId : String) (chapter : Nat) (data : String) (height : ℚ)
      (panelId : Option String)
  | load (bookId : String) (chapter : Nat) (panelId : Option String)
deriving DecidableEq, Repr

/-- One step of the key-switch effect body, in program order: issuing an
asynchronous storage call, or awaiting the completion of the most recently
issued call. -/
inductive EffectStep where
  | issue (c : StorageCall)
  | awaitDone
deriving DecidableEq, Repr

/-- The key-switch effect (`InlineBibleAnnotation` lines 305–337) as its
program-ordered sequence of storage interactions:

```
if (prevKeyRef.current !== annotationKey && savedPaths) {
  annotationStorage.saveAnnotation(prevBook, …);   // not awaited
}
prevKeyRef.current = annotationKey;
loadAnnotation();                                   // awaits getAnnotation
```
-/
def switchEffectSteps (st : AnnState) (bookId : String) (chapter : Nat)
    (panelId : Option String) : List EffectStep :=
  (if annId st.prevBook st.prevChapter st.prevPanel ≠ annId bookId chapter panelId
      ∧ st.savedPaths ≠ "" then
    [EffectStep.issue (StorageCall.save st.prevBook st.prevChapter
      st.savedPaths st.extraHeight st.prevPanel)]
  else []) ++
  [EffectStep.issue (StorageCall.load bookId chapter panelId),
   EffectStep.awaitDone]

/-- After this step sequence, is every completion point (`awaitDone`) for a
pending save reached before the next load is issued?  `true` exactly when no
load is issued while a save is pending. -/
def awaitSeparatesLoads : List EffectStep → Bool
  | [] => true
  | EffectStep.issue (StorageCall.save _ _ _ _ _) :: rest =>
      savePendingOk rest
  | _ :: rest => awaitSeparatesLoads rest
where
  /-- With a save pending: fail on a load, clear the pending save on an
  `awaitDone`. -/
  savePendingOk : List EffectStep → Bool
  | [] => true
  | EffectStep.issue (StorageCall.load _ _ _) :: _ => false
  | EffectStep.awaitDone :: rest => awaitSeparatesLoads rest
  | _ :: rest => savePendingOk rest

/-- In-order completion semantics of the adapter: the IndexedDB connection
is shared (`this.dbPromise`) and transactions with overlapping scope run in
creation order, so each issued call takes effect on the store before the
next issued call reads it.  `switchSurfaceKey` runs the key-switch effect
under that semantics: perform the (unawaited but first-issued) save, then
the load, then apply the load result to the component state exactly as
`loadAnnotation` does (absent record ⇒ empty data, zero height). -/
def switchSurfaceKey (db : AnnDB) (st : AnnState) (bookId : String)
    (chapter : Nat) (panelId : Option String) (now : Int) : AnnDB × AnnState :=
  let db1 :=
    if annId st.prevBook st.prevChapter st.prevPanel ≠ annId bookId chapter panelId
        ∧ st.savedPaths ≠ "" then
      saveAnnotationRecord db st.prevBook st.prevChapter st.savedPaths
        st.extraHeight st.prevPanel now
    else db
  let st1 : AnnState :=
    match getAnnotationRecord db1 bookId chapter panelId with
    | some (data, height) =>
      { prevBook := bookId, prevChapter := chapter, prevPanel := panelId,
        savedPaths := data, extraHeight := height }
    | none =>
      { prevBook := bookId, prevChapter := chapter, prevPanel := panelId,
        savedPaths := "", extraHeight := 0 }
  (db1, st1)

/-- `const MAX_EXPAND = 2000` (`InlineBibleAnnotation` line 262). -/
def MAX_EXPAND : ℚ := 2000

/-- The expansion-drag update from `handleExpandPointerDown`'s `handleMove`
(`InlineBibleAnnotation` lines 442–446):

```
const delta = moveEvent.clientY - dragStartRef.current.y;
const newHeight = Math.max(0, Math.min(MAX_EXPAND, dragStartRef.current.height + delta));
```
-/
def newExpandHeight (startHeight delta : ℚ) : ℚ :=
  max 0 (min MAX_EXPAND (startHeight + delta))

/-!
### Concrete fixtures for witnesses and counterexamples
-/

/-- A freshly mounted canvas in writing mode, with the initial ref values of
the component (`tool = 'pen'`, `color = '#000000'`, `size = 2`,
`lastPenDownRef = 0`). -/
def initCanvas : CanvasState :=
  { paths := [], currentPoints := [], isDrawing := false, tool := Tool.pen,
    color := "#000000", size := 2, lastPenDown := 0, usingTouch := false,
    isWritingMode := true }

/-- Sample input point. -/
def pA : Point := { x := 0, y := 0, pressure := 0, tiltX := 0, tiltY := 0 }

/-- A second, distinct sample input point. -/
def pB : Point := { x := 5, y := 5, pressure := 0, tiltX := 0, tiltY := 0 }

/-- A record persisted under the pre-panel key `doc:3`. -/
def legacyRecordDoc3 : AnnotationRecord :=
  { id := "doc:3", bookId := "doc", chapter := 3, canvasData := "[A1]",
    canvasHeight := 120, lastModified := 7, panelId := none }

/-- A store holding only the pre-panel record `doc:3`. -/
def legacyDb : AnnDB := [("doc:3", legacyRecordDoc3)]

/-- A canvas in the middle of a touch-started stroke (the touch flag is
set). -/
def touchActiveCanvas : CanvasState :=
  { initCanvas with usingTouch := true, isDrawing := true, currentPoints := [pA] }

/-- A canvas mid-stroke with two buffered points. -/
def drawingCanvas : CanvasState :=
  { initCanvas with isDrawing := true, currentPoints := [pA, pB] }

/-- A canvas mid-stroke with a single buffered point (a tap). -/
def tapCanvas : CanvasState :=
  { initCanvas with isDrawing := true, currentPoints := [pA] }

/-- An idle canvas (tool `pen`) whose last stylus-down happened at
timestamp 1000. -/
def penDownCanvas : CanvasState :=
  { initCanvas with lastPenDown := 1000 }

/-- An idle canvas whose tool is `marker`, 100 ms after a stylus-down. -/
def markerCanvas : CanvasState :=
  { initCanvas with tool := Tool.marker, lastPenDown := 1000 }

/-- An idle canvas whose tool is `eraser`, 100 ms after a stylus-down. -/
def eraserCanvas : CanvasState :=
  { initCanvas with tool := Tool.eraser, lastPenDown := 1000 }

/-- The surface-controller state sitting on key `Gen:1:chinese` with
unsaved content `[A1]`. -/
def annStateA : AnnState :=
  { prevBook := "Gen", prevChapter := 1, prevPanel := some "chinese",
    savedPaths := "[A1]", extraHeight := 0 }

/-!
## Helper lemmas
-/

/-- Decoding inverts encoding on a single point. -/
theorem decodePoint_encodePoint (p : Point) :
    decodePoint (encodePoint p) = some p := rfl

/-- Decoding inverts encoding on a point list. -/
theorem decodePointList_map (pts : List Point) :
    decodePointList (pts.map encodePoint) = some pts := by
  induction pts with
  | nil => rfl
  | cons p rest ih => simp [decodePointList, decodePoint_encodePoint p, ih]

/-- Decoding inverts encoding on a single path. -/
theorem decodePath_encodePath (p : SerializedPath) :
    decodePath (encodePath p) = some p := by
  cases p with
  | mk tool color size points =>
    cases tool <;>
      simp [encodePath, decodePath, encodeTool, decodeTool, getField, asStr,
        asNum, decodePointList_map]

/-- Decoding inverts encoding on a path list. -/
theorem decodePathList_map (ps : List SerializedPath) :
    decodePathList (ps.map encodePath) = some ps := by
  induction ps with
  | nil => rfl
  | cons p rest ih => simp [decodePathList, decodePath_encodePath p, ih]

/-- Association-list lookup through one record entry. -/
theorem lookup_record_cons (id k : String) (r : AnnotationRecord) (db : AnnDB) :
    List.lookup id ((k, r) :: db) = if id = k then some r else List.lookup id db := by
  by_cases h : id = k
  · simp [List.lookup, h]
  · simp [List.lookup, h, beq_eq_false_iff_ne.mpr h]

/-!
## Claims
-/

/-- C1 (counterexample): the claim's width formula fails at pressure 0.  For
a pen segment of base size 2 ending at a zero-pressure point, `drawSegment`
paints width 2 (the ternary substitutes pressure 0.5), not the claimed
`size × (0.1 + 0 × 1.8) = 0.2`. -/
theorem pressure_zero_width_counterexample :
    drawSegmentLineWidth Tool.pen 2 pA = 2 ∧
    drawSegmentLineWidth Tool.pen 2 pA ≠ 2 * (1/10 + pA.pressure * (9/5)) := by
  constructor
  · norm_num [drawSegmentLineWidth, pA]
  · norm_num [drawSegmentLineWidth, pA]

/-- C1 (amended): for a pen segment whose end point has both tilt axes
within 15°, the painted width is `size × (0.1 + pressure × 1.8)` whenever
the reported pressure is strictly positive; at pressure exactly 0 the code
substitutes pressure 0.5, so the width is `size × 1.0` — still nonzero, so
the stroke remains visible. -/
theorem pen_width_formula_amended (size : ℚ) (pt : Point)
    (htx : |pt.tiltX| ≤ 15) (hty : |pt.tiltY| ≤ 15) :
    (0 < pt.pressure →
      drawSegmentLineWidth Tool.pen size pt = size * (1/10 + pt.pressure * (9/5))) ∧
    (pt.pressure = 0 → drawSegmentLineWidth Tool.pen size pt = size) := by
  constructor
  · intro hp
    simp [drawSegmentLineWidth, hp, not_lt.mpr htx, not_lt.mpr hty]
  · intro hp
    simp [drawSegmentLineWidth, hp, not_lt.mpr htx, not_lt.mpr hty]
    ring

/-- C1 (witness): the amended width formula evaluated at size 2 and an
untilted point of pressure 1/2 gives `2 × (0.1 + 0.5 × 1.8)`. -/
theorem pen_width_formula_amended_witness :
    |(0 : ℚ)| ≤ 15 ∧ (0 : ℚ) < 1/2 ∧
    drawSegmentLineWidth Tool.pen 2 { x := 1, y := 1, pressure := 1/2, tiltX := 0, tiltY := 0 } =
      2 * (1/10 + (1/2) * (9/5)) :=
  ⟨by norm_num, by norm_num,
    (pen_width_formula_amended 2
      { x := 1, y := 1, pressure := 1/2, tiltX := 0, tiltY := 0 }
      (by norm_num) (by norm_num)).1 (by norm_num)⟩

/-- C2 (counterexample): the channel exclusion is not bidirectional.  A
pointer-channel down on a fresh canvas starts a stroke buffering `[pA]`;
a touch-channel start arriving mid-stroke is *not* ignored — it is processed
and restarts the buffer at `[pB]`. -/
theorem dual_channel_exclusivity_counterexample :
    (handlePointerDown initCanvas pA false true 1000).isDrawing = true ∧
    (handlePointerDown initCanvas pA false true 1000).currentPoints = [pA] ∧
    (handleTouchStart (handlePointerDown initCanvas pA false true 1000)
        1 pB false 1050).currentPoints = [pB] ∧
    pB ≠ pA := by decide

/-- C2 (amended): the exclusion holds in one direction only: while the
touch flag is set (from a touch-channel start until the 100 ms timer after
touch end, or touch cancel), pointer-channel down, move, and up events are
all ignored.  (Pointer cancel is not guarded by the flag, and touch events
are not ignored during a pointer-started stroke.) -/
theorem touch_blocks_pointer_amended (st : CanvasState)
    (h : st.usingTouch = true) :
    (∀ (p : Point) (tpen prim : Bool) (now : Int),
        handlePointerDown st p tpen prim now = st) ∧
    (∀ pts, handlePointerMove st pts = st) ∧
    handlePointerUp st = st := by
  refine ⟨fun p tpen prim now => ?_, fun pts => ?_, ?_⟩ <;>
    simp [handlePointerDown, handlePointerMove, handlePointerUp, h]

/-- C2 (witness): on a touch-active canvas, a pointer down, a pointer move,
and a pointer up all leave the state unchanged. -/
theorem touch_blocks_pointer_amended_witness :
    touchActiveCanvas.usingTouch = true ∧
    handlePointerDown touchActiveCanvas pB true true 1050 = touchActiveCanvas ∧
    handlePointerMove touchActiveCanvas [pB] = touchActiveCanvas ∧
    handlePointerUp touchActiveCanvas = touchActiveCanvas :=
  ⟨rfl, (touch_blocks_pointer_amended touchActiveCanvas rfl).1 pB true true 1050,
    (touch_blocks_pointer_amended touchActiveCanvas rfl).2.1 [pB],
    (touch_blocks_pointer_amended touchActiveCanvas rfl).2.2⟩

/-- C3 (counterexample): the committed path records the Tool State at
stroke *end*, not stroke start.  Starting a stroke with color `#000000`,
changing the color to `#ff0000` mid-stroke, and releasing commits a path
whose color is `#ff0000`. -/
theorem tool_state_at_start_counterexample :
    initCanvas.color = "#000000" ∧
    (endDrawing (continueDrawing
        (setColor (startDrawing initCanvas pA false 1000) "#ff0000") [pB])).paths =
      [{ tool := Tool.pen, color := "#ff0000", size := 2, points := [pA, pB] }] ∧
    ("#ff0000" : String) ≠ "#000000" := by decide

/-- C3 (amended): the `{tool, color, size}` recorded in the committed
`SerializedPath` are the Tool State values in effect at stroke *end* (so a
mid-stroke mutation does affect the in-progress stroke), while mutating the
Tool State never affects already-completed paths in the store. -/
theorem tool_state_commit_amended (st : CanvasState)
    (hd : st.isDrawing = true) (hlen : 2 ≤ st.currentPoints.length) :
    (endDrawing st).paths = st.paths ++
      [{ tool := st.tool, color := st.color, size := st.size,
         points := st.currentPoints }] ∧
    (∀ t, (setTool st t).paths = st.paths) ∧
    (∀ c, (setColor st c).paths = st.paths) ∧
    (∀ s, (setSize st s).paths = st.paths) := by
  refine ⟨?_, fun t => rfl, fun c => rfl, fun s => rfl⟩
  simp [endDrawing, hd, hlen]

/-- C3 (witness): releasing a two-point stroke on `drawingCanvas` appends
one path carrying the end-of-stroke tool state, and `setColor` leaves the
store untouched. -/
theorem tool_state_commit_amended_witness :
    drawingCanvas.isDrawing = true ∧ 2 ≤ drawingCanvas.currentPoints.length ∧
    ((endDrawing drawingCanvas).paths = drawingCanvas.paths ++
      [{ tool := drawingCanvas.tool, color := drawingCanvas.color,
         size := drawingCanvas.size, points := drawingCanvas.currentPoints }] ∧
     (setColor drawingCanvas "#ff0000").paths = drawingCanvas.paths) :=
  ⟨rfl, by decide,
    (tool_state_commit_amended drawingCanvas rfl (by decide)).1,
    (tool_state_commit_amended drawingCanvas rfl (by decide)).2.2.1 "#ff0000"⟩

/-- C4: a stylus-class down strictly between 50 ms and 300 ms after the
previous stylus-down starts no stroke and toggles the tool between pen and
eraser (resetting the double-tap anchor); a stylus-down outside that window
starts a stroke normally with the tool unchanged. -/
theorem double_tap_window_toggle (st : CanvasState) (p : Point) (now : Int)
    (hw : st.isWritingMode = true) :
    ((now - st.lastPenDown < 300 ∧ now - st.lastPenDown > 50) →
      startDrawing st p true now =
        { st with tool := if st.tool = Tool.eraser then Tool.pen else Tool.eraser,
                  lastPenDown := 0 }) ∧
    (¬ (now - st.lastPenDown < 300 ∧ now - st.lastPenDown > 50) →
      startDrawing st p true now =
        { st with isDrawing := true, currentPoints := [p], lastPenDown := now }) := by
  constructor
  · rintro ⟨h1, h2⟩
    simp [startDrawing, hw, h1, h2]
  · intro h
    simp [startDrawing, hw, h]

/-- C4 (witness): a stylus-down 100 ms after the previous one toggles pen
to eraser without starting a stroke; a stylus-down 400 ms after starts a
stroke with the tool unchanged. -/
theorem double_tap_window_toggle_witness :
    penDownCanvas.isWritingMode = true ∧
    ((1100 : Int) - penDownCanvas.lastPenDown < 300 ∧
      (1100 : Int) - penDownCanvas.lastPenDown > 50) ∧
    startDrawing penDownCanvas pA true 1100 =
      { penDownCanvas with
        tool := if penDownCanvas.tool = Tool.eraser then Tool.pen else Tool.eraser,
        lastPenDown := 0 } ∧
    startDrawing penDownCanvas pA true 1400 =
      { penDownCanvas with
        isDrawing := true, currentPoints := [pA], lastPenDown := 1400 } :=
  ⟨rfl, by decide,
    (double_tap_window_toggle penDownCanvas pA 1100 rfl).1 (by decide),
    (double_tap_window_toggle penDownCanvas pA 1400 rfl).2 (by decide)⟩

/-- C5: a stroke release with fewer than 2 buffered points appends no path
and leaves the serialized form unchanged; a release with at least 2 points
appends exactly one new path built from the buffered points. -/
theorem min_length_commit (st : CanvasState) (hd : st.isDrawing = true) :
    (st.currentPoints.length < 2 →
      (endDrawing st).paths = st.paths ∧ getData (endDrawing st) = getData st) ∧
    (2 ≤ st.currentPoints.length →
      (endDrawing st).paths = st.paths ++
        [{ tool := st.tool, color := st.color, size := st.size,
           points := st.currentPoints }]) := by
  constructor
  · intro hlen
    have hnle : ¬ 2 ≤ st.currentPoints.length := not_le.mpr hlen
    simp [endDrawing, hd, hnle, getData]
  · intro hlen
    simp [endDrawing, hd, hlen]

/-- C5 (witness): releasing a single-point tap leaves the store and its
serialized form unchanged; releasing a two-point stroke appends exactly one
path. -/
theorem min_length_commit_witness :
    tapCanvas.isDrawing = true ∧ tapCanvas.currentPoints.length < 2 ∧
    ((endDrawing tapCanvas).paths = tapCanvas.paths ∧
      getData (endDrawing tapCanvas) = getData tapCanvas) ∧
    (endDrawing drawingCanvas).paths = drawingCanvas.paths ++
      [{ tool := drawingCanvas.tool, color := drawingCanvas.color,
         size := drawingCanvas.size, points := drawingCanvas.currentPoints }] :=
  ⟨rfl, by decide, (min_length_commit tapCanvas rfl).1 (by decide),
    (min_length_commit drawingCanvas rfl).2 (by decide)⟩

/-- C6: serializing any path store through `getData` and loading the result
back through the `initialData` effect onto a fresh (empty) canvas store
reproduces exactly the same paths, in order, with identical points, tool,
color and size per path. -/
theorem serialize_roundtrip (st : CanvasState) :
    loadInitialData (getData st) [] = st.paths := by
  by_cases h : st.paths.length = 0
  · simp [getData, h, loadInitialData, List.length_eq_zero.mp h]
  · simp [getData, h, loadInitialData, encodePaths, decodePaths, decodePathList_map]

/-- C7 (counterexample): the key-switch effect issues the outgoing save and
then immediately issues the dependent load with no completion point
(`await`) in between — the save is not awaited before the load runs. -/
theorem flush_not_awaited_counterexample :
    switchEffectSteps annStateA "Gen" 2 (some "chinese") =
      [EffectStep.issue (StorageCall.save "Gen" 1 "[A1]" 0 (some "chinese")),
       EffectStep.issue (StorageCall.load "Gen" 2 (some "chinese")),
       EffectStep.awaitDone] ∧
    awaitSeparatesLoads (switchEffectSteps annStateA "Gen" 2 (some "chinese")) = false := by
  decide

/-- C7 (amended): the outgoing save is issued before the dependent load but
not awaited; because the adapter processes issued operations in order (one
shared IndexedDB connection, overlapping-scope transactions run in creation
order), switching from surface A to B and back to A still loads exactly the
data saved for A, with no loss and no duplication. -/
theorem switch_back_loads_saved_amended (bookA bookB : String) (chA chB : Nat)
    (panA panB : Option String) (d : String) (hgt : ℚ) (t1 t2 : Int)
    (hd : d ≠ "")
    (hAB : annId bookA chA panA ≠ annId bookB chB panB)
    (hFB : annId bookB chB none ≠ annId bookA chA panA) :
    ((switchSurfaceKey
        (switchSurfaceKey [] ⟨bookA, chA, panA, d, hgt⟩ bookB chB panB t1).1
        (switchSurfaceKey [] ⟨bookA, chA, panA, d, hgt⟩ bookB chB panB t1).2
        bookA chA panA t2).2).savedPaths = d ∧
    ((switchSurfaceKey
        (switchSurfaceKey [] ⟨bookA, chA, panA, d, hgt⟩ bookB chB panB t1).1
        (switchSurfaceKey [] ⟨bookA, chA, panA, d, hgt⟩ bookB chB panB t1).2
        bookA chA panA t2).2).extraHeight = hgt := by
  have e1 : switchSurfaceKey [] (⟨bookA, chA, panA, d, hgt⟩ : AnnState) bookB chB panB t1 =
      ([(annId bookA chA panA,
         { id := annId bookA chA panA, bookId := bookA, chapter := chA,
           canvasData := d, canvasHeight := hgt, lastModified := t1, panelId := panA })],
       ⟨bookB, chB, panB, "", 0⟩) := by
    cases panB with
    | none =>
      simp [switchSurfaceKey, saveAnnotationRecord, dbPut, getAnnotationRecord,
        dbGet, lookup_record_cons, hAB, hd, Ne.symm hAB]
    | some pb =>
      simp [switchSurfaceKey, saveAnnotationRecord, dbPut, getAnnotationRecord,
        dbGet, lookup_record_cons, hAB, hd, Ne.symm hAB, Ne.symm hFB, hFB]
  rw [e1]
  have hne : ¬ (annId bookB chB panB ≠ annId bookA chA panA ∧ ("" : String) ≠ "") := by
    simp
  simp [switchSurfaceKey, getAnnotationRecord, dbGet, lookup_record_cons, hne]

/-- C7 (witness): saving `[A1]` on `Gen:1:chinese`, switching to
`Gen:2:chinese`, and switching back loads exactly `[A1]` with the saved
height. -/
theorem switch_back_loads_saved_amended_witness :
    ("[A1]" : String) ≠ "" ∧
    annId "Gen" 1 (some "chinese") ≠ annId "Gen" 2 (some "chinese") ∧
    ((switchSurfaceKey
        (switchSurfaceKey [] ⟨"Gen", 1, some "chinese", "[A1]", 0⟩ "Gen" 2 (some "chinese") 5).1
        (switchSurfaceKey [] ⟨"Gen", 1, some "chinese", "[A1]", 0⟩ "Gen" 2 (some "chinese") 5).2
        "Gen" 1 (some "chinese") 9).2).savedPaths = "[A1]" :=
  ⟨by decide, by decide,
    (switch_back_loads_saved_amended "Gen" "Gen" 1 2 (some "chinese") (some "chinese")
      "[A1]" 0 5 9 (by decide) (by decide) (by decide)).1⟩

/-- C8: the expansion-drag height is clamped to `[0, 2000]`; a requested
delta landing at −50 clamps to 0, and a delta of +5000 from height 0 clamps
to 2000. -/
theorem expand_clamp (startHeight delta : ℚ) :
    (0 ≤ newExpandHeight startHeight delta ∧
      newExpandHeight startHeight delta ≤ 2000) ∧
    (startHeight + delta = -50 → newExpandHeight startHeight delta = 0) ∧
    newExpandHeight 0 5000 = 2000 := by
  refine ⟨⟨le_max_left _ _, ?_⟩, fun h => ?_, ?_⟩
  · exact max_le (by norm_num) ((min_le_left _ _).trans (by norm_num [MAX_EXPAND]))
  · rw [newExpandHeight, h]; norm_num [MAX_EXPAND]
  · norm_num [newExpandHeight, MAX_EXPAND]

/-- C8 (witness): a drag from height 10 with delta −60 (landing at −50)
clamps to 0. -/
theorem expand_clamp_witness :
    (10 : ℚ) + (-60) = -50 ∧ newExpandHeight 10 (-60) = 0 :=
  ⟨by norm_num, (expand_clamp 10 (-60)).2.1 (by norm_num)⟩

/-- C9: a lookup under a panel-discriminated key that finds no record falls
back to the record stored under the same key without the panel
discriminator, and is absent exactly when that base key is also absent. -/
theorem panel_fallback_lookup (db : AnnDB) (bookId : String) (chapter : Nat)
    (panel : String)
    (hmiss : dbGet db (annId bookId chapter (some panel)) = none) :
    getAnnotationRecord db bookId chapter (some panel) =
      Option.map (fun r => (r.canvasData, r.canvasHeight))
        (dbGet db (annId bookId chapter none)) ∧
    (getAnnotationRecord db bookId chapter (some panel) = none ↔
      dbGet db (annId bookId chapter none) = none) := by
  constructor
  · simp [getAnnotationRecord, hmiss]
  · simp [getAnnotationRecord, hmiss, Option.map_eq_none']

/-- C9 (witness): a record saved under `doc:3` (no panel) is returned for a
lookup of `doc:3:chinese` when no `doc:3:chinese` record exists. -/
theorem panel_fallback_lookup_witness :
    dbGet legacyDb (annId "doc" 3 (some "chinese")) = none ∧
    getAnnotationRecord legacyDb "doc" 3 (some "chinese") =
      Option.map (fun r => (r.canvasData, r.canvasHeight))
        (dbGet legacyDb (annId "doc" 3 none)) :=
  ⟨by decide, (panel_fallback_lookup legacyDb "doc" 3 "chinese" (by decide)).1⟩

/-- C10: within the double-tap window the gesture maps every non-eraser
tool (pen, marker, highlighter) to eraser, and maps eraser to pen, while
starting no stroke. -/
theorem double_tap_tool_mapping (st : CanvasState) (p : Point) (now : Int)
    (hw : st.isWritingMode = true)
    (h1 : now - st.lastPenDown < 300) (h2 : now - st.lastPenDown > 50) :
    ((st.tool ≠ Tool.eraser → (startDrawing st p true now).tool = Tool.eraser) ∧
     (st.tool = Tool.eraser → (startDrawing st p true now).tool = Tool.pen)) ∧
    (startDrawing st p true now).isDrawing = st.isDrawing ∧
    (startDrawing st p true now).currentPoints = st.currentPoints := by
  refine ⟨⟨fun hne => ?_, fun he => ?_⟩, ?_, ?_⟩ <;>
    simp_all [startDrawing, hw, h1, h2]

/-- C10 (witness): a double-tap at 1100 (100 ms after the previous
stylus-down) turns the marker tool into the eraser and the eraser tool into
the pen, starting no stroke. -/
theorem double_tap_tool_mapping_witness :
    markerCanvas.isWritingMode = true ∧
    ((1100 : Int) - markerCanvas.lastPenDown < 300 ∧
      (1100 : Int) - markerCanvas.lastPenDown > 50) ∧
    (startDrawing markerCanvas pA true 1100).tool = Tool.eraser ∧
    (startDrawing eraserCanvas pA true 1100).tool = Tool.pen ∧
    (startDrawing markerCanvas pA true 1100).isDrawing = markerCanvas.isDrawing :=
  ⟨rfl, by decide,
    (double_tap_tool_mapping markerCanvas pA 1100 rfl (by decide) (by decide)).1.1
      (by decide),
    (double_tap_tool_mapping eraserCanvas pA 1100 rfl (by decide) (by decide)).1.2 rfl,
    (double_tap_tool_mapping markerCanvas pA 1100 rfl (by decide) (by decide)).2.1⟩

end BibleInk
